import Mathlib

/-!
Verification of the NOBIL EV charging analytics pipeline.

Shallow embedding of the core of the repository:
- `data_prep.py`   : event normalisation, UNKNOWN exclusion, hourly aggregation;
- `compute_metrics.py` / `compute_metrics_refined.py` : the five analytics
  views, in particular the peak-period selector and the downtime run detector.

Conventions of the embedding:
- entity ids and statuses are `String`s, timestamps are `Nat` seconds since the
  epoch; flooring a timestamp to the hour (`dt.floor` with a one hour
  frequency) is integer division by 3600;
- rates are exact rationals `ℚ` (the Python floats are IEEE doubles; every
  quantity the claims mention is a ratio of small integers, computed by one
  division, so the rational model is exact);
- a raw record field that is absent or (for the timestamp) unparseable is
  `none`: `pd.to_datetime(errors = coerce)` followed by `dropna` keeps exactly
  the records whose timestamp parses, so `timestamp : Option Nat` models the
  parse result directly;
- pandas `DataFrame`s are lists of rows; `groupby` keys are materialised with
  `List.dedup`; fallible script entry points return `Except`.
-/

namespace Nobil

/-- A raw decoded event, as produced by `parse_avro_file`: the four payload
fields, each possibly absent.  `timestamp` is the result of timestamp parsing
(`none` when the field is absent or unparseable). -/
structure RawRecord where
  station_id : Option String
  evse_id : Option String
  status : Option String
  timestamp : Option Nat
deriving DecidableEq, Repr

/-- A canonical record after `df.dropna(subset=[station_id, evse_id, status,
timestamp])` and timestamp parsing: all four fields present. -/
structure CanonRecord where
  station_id : String
  evse_id : String
  status : String
  timestamp : Nat
deriving DecidableEq, Repr

/-- The null-field and timestamp filters of `data_prep.main` (lines 69-71):
keep a record exactly when all four canonical fields are present and the
timestamp parses. -/
def normalizeRecords (l : List RawRecord) : List CanonRecord :=
  l.filterMap (fun r =>
    match r.station_id, r.evse_id, r.status, r.timestamp with
    | some s, some e, some st, some t => some ⟨s, e, st, t⟩
    | _, _, _, _ => none)

/-- Floor of a timestamp to the top of the hour, in hours. -/
def hourOf (r : CanonRecord) : Nat := r.timestamp / 3600

/-- One row of an hourly count table (`agg` in `data_prep.main`): the pivoted
per-status counts plus the derived `total`, `charging` and `occupancy_rate`
columns. -/
structure HourlyRow where
  entity : String
  hour : Nat
  statusCounts : List (String × Nat)
  total : Nat
  charging : Nat
  occupancy_rate : ℚ
deriving DecidableEq, Repr

/-- The distinct statuses observed in the input: the column set produced by
`.unstack(fill_value=0)`. -/
def observedStatuses (l : List CanonRecord) : List String :=
  (l.map (fun r => r.status)).dedup

/-- The records that fall in one `(entity, hour)` bucket, `f` selecting the
entity column (`station_id` or `evse_id`). -/
def keyRecords (f : CanonRecord → String) (l : List CanonRecord)
    (e : String) (h : Nat) : List CanonRecord :=
  l.filter (fun r => f r = e ∧ hourOf r = h)

/-- Count of records of a given entity/hour/status cell — one cell of
`groupby([entity, hour, status]).size()`. -/
def cellCount (f : CanonRecord → String) (l : List CanonRecord)
    (e : String) (h : Nat) (s : String) : Nat :=
  ((keyRecords f l e h).filter (fun r => r.status = s)).length

/-- The distinct `(entity, hour)` group keys. -/
def hourlyKeys (f : CanonRecord → String) (l : List CanonRecord) :
    List (String × Nat) :=
  (l.map (fun r => (f r, hourOf r))).dedup

/-- The row built for one `(entity, hour)` key: per-status counts over the
observed status columns, `total = agg.sum(axis=1)` (row-wise sum over the
status columns), `charging = agg.get(CHARGING, 0)` (0 when no CHARGING column
exists), `occupancy_rate = charging / total`. -/
def mkHourlyRow (f : CanonRecord → String) (l : List CanonRecord)
    (k : String × Nat) : HourlyRow :=
  let cols := observedStatuses l
  let ch := if "CHARGING" ∈ cols then cellCount f l k.1 k.2 "CHARGING" else 0
  let tot := (cols.map (fun s => cellCount f l k.1 k.2 s)).sum
  { entity := k.1, hour := k.2,
    statusCounts := cols.map (fun s => (s, cellCount f l k.1 k.2 s)),
    total := tot, charging := ch,
    occupancy_rate := (ch : ℚ) / (tot : ℚ) }

/-- The hourly count table: `df_clean.groupby([entity, hour, status]).size()
.unstack(fill_value=0)` with the three derived columns (`data_prep.main`
lines 85-88 and 100-103, parameterised by the entity column). -/
def buildHourlyTable (f : CanonRecord → String) (l : List CanonRecord) :
    List HourlyRow :=
  (hourlyKeys f l).map (mkHourlyRow f l)

/-- The `unknown_analysis.txt` report artifact written by `data_prep.main`
(lines 110-114). -/
structure UnknownReport where
  totalRecords : Nat
  unknownCount : Nat
  unknownPct : ℚ
  decision : String
deriving DecidableEq, Repr

/-- The artifacts of a successful `data_prep.main` run. -/
structure PrepOutput where
  report : UnknownReport
  cleanRecords : List CanonRecord
  stationTable : List HourlyRow
  evseTable : List HourlyRow
deriving DecidableEq, Repr

/-- How a `data_prep.main` run can halt without producing its artifacts:
`noAvroFiles` is the explicit `print` + `sys.exit(1)` branch (lines 55-57);
`keyErrorEmptyFrame` is the uncaught `KeyError` raised by
`dropna(subset=...)` when `pd.DataFrame([])` has no columns (line 69 with an
empty record list); `zeroDivisionError` is the uncaught `ZeroDivisionError`
raised by `unknown_pct = unknown_count / total * 100` (line 77) when every
record was dropped by the null-field / timestamp filters. -/
inductive PrepError where
  | noAvroFiles
  | keyErrorEmptyFrame
  | zeroDivisionError
deriving DecidableEq, Repr

/-- Entry point `data_prep.main`: `files` is the per-file output of the external
`parse_avro_file` decoder for each discovered Avro file (in discovery order),
`sample_size` the `--sample_size` argument.  Mirrors the control flow of
lines 53-114; the `status_summary.csv` artifact is outside every claim and
omitted from the output record. -/
def data_prep_main (files : List (List RawRecord)) (sample_size : Nat) :
    Except PrepError PrepOutput :=
  if files.isEmpty then .error .noAvroFiles
  else
    let all_recs := (files.take sample_size).flatten
    if all_recs.isEmpty then .error .keyErrorEmptyFrame
    else
      let df := normalizeRecords all_recs
      let total := df.length
      if total = 0 then .error .zeroDivisionError
      else
        let unknown_count := (df.filter (fun r => r.status = "UNKNOWN")).length
        let df_clean := df.filter (fun r => r.status ≠ "UNKNOWN")
        .ok
          { report :=
              { totalRecords := total, unknownCount := unknown_count,
                unknownPct := (unknown_count : ℚ) / (total : ℚ) * 100,
                decision :=
                  "Decision: Excluded UNKNOWN status from occupancy metrics." },
            cleanRecords := df_clean,
            stationTable := buildHourlyTable (fun r => r.station_id) df_clean,
            evseTable := buildHourlyTable (fun r => r.evse_id) df_clean }

/-! ## Analytics engine (`compute_metrics.py` / `compute_metrics_refined.py`)

The analytics functions consume projections of the hourly tables:
`[station_id, hour, occupancy_rate]` for the station-level views and
`[evse_id, hour, charging_count]` for the downtime detector. -/

/-- A station-level hourly row as consumed by the analytics functions. -/
structure StRow where
  station_id : String
  hour : Nat
  occupancy_rate : ℚ
deriving DecidableEq, Repr

/-- A connector-level hourly row as consumed by the downtime detector
(`charging_count` is the renamed `charging` column). -/
structure EvseRow where
  evse_id : String
  hour : Nat
  charging_count : Nat
deriving DecidableEq, Repr

/-- Projection of an hourly-table row to the station analytics columns. -/
def toStRow (row : HourlyRow) : StRow :=
  { station_id := row.entity, hour := row.hour,
    occupancy_rate := row.occupancy_rate }

/-- Projection of an hourly-table row to the detector columns
(`evse_df[charging_count] = evse_df[charging]`). -/
def toEvseRow (row : HourlyRow) : EvseRow :=
  { evse_id := row.entity, hour := row.hour, charging_count := row.charging }

/-- One row of `compute_utilization_trends`. -/
structure DailyRow where
  station_id : String
  date : Nat
  avg_occupancy_rate : ℚ
deriving DecidableEq, Repr

/-- Function `compute_utilization_trends`: mean `occupancy_rate` per `(station, date)`,
with `date = hour` truncated to the day. -/
def compute_utilization_trends (df : List StRow) : List DailyRow :=
  ((df.map (fun r => (r.station_id, r.hour / 24))).dedup).map (fun k =>
    let xs := df.filter (fun r => r.station_id = k.1 ∧ r.hour / 24 = k.2)
    { station_id := k.1, date := k.2,
      avg_occupancy_rate := (xs.map (fun r => r.occupancy_rate)).sum / (xs.length : ℚ) })

/-- Entity ids compare as their character sequences: pandas sorts string keys
lexicographically by code point, which is the lexicographic order on the
list of characters (this is also exactly what the core `String.lt` means). -/
def strKey (s : String) : List Char := s.data

/-- Ascending order on group keys, used where pandas sorts `groupby` keys. -/
def idLE (a b : String) : Prop := ¬ strKey b < strKey a

instance : DecidableRel idLE := fun a b =>
  inferInstanceAs (Decidable (¬ strKey b < strKey a))

/-- The lexicographic sort key of `compute_peak_periods`:
`sort_values([station_id, occupancy_rate], ascending=[True, False])`.
A multi-column pandas `sort_values` is a stable lexicographic sort
(`numpy.lexsort`), embedded as the stable `insertionSort` with this total
preorder: stable sorts of a list under a fixed total preorder coincide. -/
def peakRel (a b : StRow) : Prop :=
  strKey a.station_id < strKey b.station_id ∨
    (a.station_id = b.station_id ∧ b.occupancy_rate ≤ a.occupancy_rate)

instance : DecidableRel peakRel := fun a b =>
  inferInstanceAs (Decidable (strKey a.station_id < strKey b.station_id ∨
    (a.station_id = b.station_id ∧ b.occupancy_rate ≤ a.occupancy_rate)))

instance : IsTrans StRow peakRel :=
  ⟨by
    intro a b c hab hbc
    rcases hab with h1 | ⟨h1e, h1r⟩
    · rcases hbc with h2 | ⟨h2e, h2r⟩
      · exact Or.inl (lt_trans h1 h2)
      · exact Or.inl (h2e ▸ h1)
    · rcases hbc with h2 | ⟨h2e, h2r⟩
      · refine Or.inl ?_
        show strKey a.station_id < strKey c.station_id
        rw [h1e]
        exact h2
      · exact Or.inr ⟨h1e.trans h2e, le_trans h2r h1r⟩⟩

instance : IsTotal StRow peakRel :=
  ⟨by
    intro a b
    rcases lt_trichotomy (strKey a.station_id) (strKey b.station_id) with h | h | h
    · exact Or.inl (Or.inl h)
    · have hse : a.station_id = b.station_id := by
        cases ha : a.station_id with
        | mk da =>
          cases hb : b.station_id with
          | mk db =>
            rw [ha, hb] at h
            rw [show da = db from h]
      rcases le_total b.occupancy_rate a.occupancy_rate with hr | hr
      · exact Or.inl (Or.inr ⟨hse, hr⟩)
      · exact Or.inr (Or.inr ⟨hse.symm, hr⟩)
    · exact Or.inr (Or.inl h)⟩

/-- Model of `groupby(station_id).head(top_n)` over an already sorted frame: keep a
row exactly when fewer than `top_n` rows of the same station precede it,
preserving the order of the frame.  `cnt` tallies the rows of each station already
scanned. -/
def headPerStation (top_n : Nat) (cnt : String → Nat) : List StRow → List StRow
  | [] => []
  | r :: rs =>
    let cnt2 := fun s => if s = r.station_id then cnt s + 1 else cnt s
    if cnt r.station_id < top_n then r :: headPerStation top_n cnt2 rs
    else headPerStation top_n cnt2 rs

/-- Function `compute_peak_periods`: stable sort by `(station_id asc, occupancy_rate
desc)`, then the first `top_n` rows of each station. -/
def compute_peak_periods (df : List StRow) (top_n : Nat := 5) : List StRow :=
  headPerStation top_n (fun _ => 0) (df.insertionSort peakRel)

/-- One row of `compute_global_peak_by_hour_of_day`. -/
structure GlobalPeakRow where
  hour_of_day : Nat
  avg_occupancy_rate : ℚ
deriving DecidableEq, Repr

/-- Function `compute_global_peak_by_hour_of_day`: mean `occupancy_rate` per
wall-clock hour `hour mod 24`, across all stations. -/
def compute_global_peak_by_hour_of_day (df : List StRow) : List GlobalPeakRow :=
  ((df.map (fun r => r.hour % 24)).dedup).map (fun h =>
    let xs := df.filter (fun r => r.hour % 24 = h)
    { hour_of_day := h,
      avg_occupancy_rate := (xs.map (fun r => r.occupancy_rate)).sum / (xs.length : ℚ) })

/-- One row of the capacity-pressure view. -/
structure CapacityRow where
  station_id : String
  total_hours : Nat
  high_pressure_hours : Nat
  high_pressure_ratio : ℚ
deriving DecidableEq, Repr

/-- Function `compute_capacity_pressure_messages` (the name actually defined by
`compute_metrics.py`; `compute_metrics_refined.py` defines the same body as
`compute_capacity_pressure`): per station, the hour count, the count of hours
with `occupancy_rate >= threshold`, and their ratio. -/
def compute_capacity_pressure_messages (df : List StRow)
    (threshold : ℚ := 9 / 10) : List CapacityRow :=
  ((df.map (fun r => r.station_id)).dedup).map (fun s =>
    let xs := df.filter (fun r => r.station_id = s)
    let hp := (xs.filter (fun r => threshold ≤ r.occupancy_rate)).length
    { station_id := s, total_hours := xs.length, high_pressure_hours := hp,
      high_pressure_ratio := (hp : ℚ) / (xs.length : ℚ) })

/-! ## Downtime run detector (`compute_reliability_downtime`) -/

/-- The flag `is_zero = (charging_count == 0)`. -/
def isZero (r : EvseRow) : Bool := r.charging_count == 0

/-- The per-connector sort key of the detector: ascending hour. -/
def hourLE (a b : EvseRow) : Prop := a.hour ≤ b.hour

instance : DecidableRel hourLE := fun a b => Nat.decLe a.hour b.hour

instance : IsTotal EvseRow hourLE := ⟨fun a b => Nat.le_total a.hour b.hour⟩

instance : IsTrans EvseRow hourLE := ⟨fun _ _ _ h1 h2 => Nat.le_trans h1 h2⟩

/-- Model of `group.sort_values(hour)`. -/
def sortByHour (rows : List EvseRow) : List EvseRow :=
  rows.insertionSort hourLE

/-- Segmentation of a sequence into maximal blocks of constant `flag`: the
list-level reading of `run = (is_zero != is_zero.shift(1)).cumsum()` followed
by `groupby(run)` — the run id increments exactly when the flag changes
relative to the immediately preceding element, so the groups of equal run id
are the maximal constant-flag blocks, in order. -/
def groupRunsAux {α : Type} (flag : α → Bool) : List α → List (List α)
  | [] => []
  | a :: as =>
    match groupRunsAux flag as with
    | [] => [[a]]
    | [] :: gs => [a] :: gs
    | (b :: g) :: gs =>
      if flag a = flag b then (a :: b :: g) :: gs else [a] :: (b :: g) :: gs

/-- The runs of an EVSE group: maximal blocks of constant `is_zero`. -/
def groupRuns (rows : List EvseRow) : List (List EvseRow) :=
  groupRunsAux isZero rows

/-- The qualification filter `runs[is_zero and count_hours >= gap_hours]`:
the `is_zero` flag of the run (taken from its first row) is true and
its row count is at least `gap_hours`. -/
def runQualifies (gap_hours : Nat) (g : List EvseRow) : Bool :=
  ((g.head?.map isZero).getD false) && decide (gap_hours ≤ g.length)

/-- The loop body of `compute_reliability_downtime` for one EVSE group:
`(num_downtime_events, total_downtime_hours)` — the number of qualifying
runs and the sum of their lengths. -/
def downtimeForEvse (rows : List EvseRow) (gap_hours : Nat) : Nat × Nat :=
  let q := (groupRuns (sortByHour rows)).filter (runQualifies gap_hours)
  (q.length, (q.map List.length).sum)

/-- Function `compute_reliability_downtime`: one `(evse_id, num_downtime_events,
total_downtime_hours)` row per EVSE (`groupby(evse_id)` iterates the group
keys in ascending order). -/
def compute_reliability_downtime (df : List EvseRow) (gap_hours : Nat := 24) :
    List (String × Nat × Nat) :=
  (((df.map (fun r => r.evse_id)).dedup).insertionSort idLE).map
    (fun e =>
      let d := downtimeForEvse (df.filter (fun r => r.evse_id = e)) gap_hours
      (e, d.1, d.2))

/-- The zero-activity rows of the qualifying downtime runs of one connector,
in hour order — the zero-activity-only filtered output of the detector for
that connector. -/
def qualifyingRows (rows : List EvseRow) (gap_hours : Nat) : List EvseRow :=
  ((groupRuns (sortByHour rows)).filter (runQualifies gap_hours)).flatten

/-! ## Entry points of the two analytics scripts -/

/-- The `AVAILABLE` count of an hourly row, read off the pivoted status
columns (`station_df[AVAILABLE]`).  The `getD 0` branch is never taken by
`compute_metrics_refined_main`, which only builds refined rows after checking
that the `AVAILABLE` column exists. -/
def availableOf (row : HourlyRow) : Nat :=
  ((row.statusCounts.find? (fun p => p.1 = "AVAILABLE")).map (fun p => p.2)).getD 0

/-- The refined station table (`compute_metrics_refined.main` lines 139-147):
`occupancy_rate_refined = occupied_msgs / (occupied_msgs + available_msgs)`
where `occupied_msgs = charging` and `available_msgs = AVAILABLE`, followed by
`dropna` on the refined rate.  Both counts are nonnegative, so the rate is
`NaN` exactly when the denominator `charging + available` is zero (`0/0`);
`dropna` therefore drops exactly the zero-denominator rows.  The original
`occupancy_rate` column is replaced by the refined one. -/
def refinedStationTable (l : List CanonRecord) : List HourlyRow :=
  ((buildHourlyTable (fun r => r.station_id) l).filter
    (fun row => row.charging + availableOf row ≠ 0)).map
    (fun row =>
      { row with occupancy_rate :=
          (row.charging : ℚ) / ((row.charging : ℚ) + (availableOf row : ℚ)) })

/-- How an analytics entry point halts: `nameError n` models an uncaught
Python `NameError` on the undefined name `n`; `keyError k` an uncaught pandas
`KeyError` on the missing column `k`. -/
inductive MetricsError where
  | nameError (name : String)
  | keyError (key : String)
deriving DecidableEq, Repr

/-- The five output tables an analytics entry point saves with `to_csv`. -/
structure AnalyticsOutputs where
  daily_utilization_trends : List DailyRow
  peak_periods_station : List StRow
  global_peak_hour_of_day : List GlobalPeakRow
  capacity_pressure_station : List CapacityRow
  reliability_evse_downtime : List (String × Nat × Nat)
deriving DecidableEq, Repr

/-- The module-level names `compute_metrics.py` defines (its five `def`s and
`main`), transcribed from the source.  Python resolves a called name against
these at call time. -/
def compute_metrics_defined_names : List String :=
  ["compute_utilization_trends", "compute_peak_periods",
   "compute_global_peak_by_hour_of_day", "compute_capacity_pressure_messages",
   "compute_reliability_downtime", "main"]

/-- Entry point `compute_metrics.main` (lines 111-139): computes the first three views,
then evaluates `compute_capacity_pressure(station_df)` (line 131).  The
module defines `compute_capacity_pressure_messages` but not
`compute_capacity_pressure` (see `compute_metrics_defined_names`), so Python
raises `NameError` there — before `compute_reliability_downtime` runs and
before any of the five `to_csv` writes (lines 135-139). -/
def compute_metrics_main (station_df : List StRow) (evse_df : List EvseRow) :
    Except MetricsError AnalyticsOutputs :=
  let _daily_util := compute_utilization_trends station_df
  let _peak_periods := compute_peak_periods station_df 5
  let _global_peak := compute_global_peak_by_hour_of_day station_df
  let _unused := evse_df
  .error (.nameError "compute_capacity_pressure")

/-- Entry point `compute_metrics_refined.main` (lines 134-166), as a function of the
cleaned canonical records behind its two parquet inputs (the station input is
`buildHourlyTable station_id` of those records, the EVSE input
`buildHourlyTable evse_id`).  Line 142 indexes `station_df[AVAILABLE]`
unconditionally: the pivoted column set is `observedStatuses`, so when no
`AVAILABLE` status was observed pandas raises `KeyError` before any output is
computed.  (`charging`, by contrast, was created by `data_prep` with
`agg.get(CHARGING, 0)` and always exists.) -/
def compute_metrics_refined_main (df_clean : List CanonRecord) :
    Except MetricsError AnalyticsOutputs :=
  if "AVAILABLE" ∈ observedStatuses df_clean then
    let station_ref := (refinedStationTable df_clean).map toStRow
    let evse_df := (buildHourlyTable (fun r => r.evse_id) df_clean).map toEvseRow
    .ok { daily_utilization_trends := compute_utilization_trends station_ref,
          peak_periods_station := compute_peak_periods station_ref 5,
          global_peak_hour_of_day := compute_global_peak_by_hour_of_day station_ref,
          capacity_pressure_station :=
            compute_capacity_pressure_messages station_ref (9 / 10),
          reliability_evse_downtime := compute_reliability_downtime evse_df 24 }
  else .error (.keyError "AVAILABLE")

/-! ## Concrete scenario inputs named by the claims -/

/-- The 26 hourly rows of connector `C1` from the downtime scenario of the spec:
`charging_count` values `[0,0,0,5,` then 21 zeros, then `3]`, at 26
consecutive hours. -/
def c1ScenarioRows : List EvseRow :=
  (List.range 26).map (fun i =>
    ⟨"C1", i, if i = 3 then 5 else if i = 25 then 3 else 0⟩)

/-- Station `S1`, one hour (08:00), with 3 CHARGING and 7 AVAILABLE records
(the refined-ratio scenario of the spec). -/
def s1BaseRecords : List CanonRecord :=
  (List.range 3).map (fun i => ⟨"S1", "E1", "CHARGING", 8 * 3600 + i⟩) ++
    (List.range 7).map (fun i => ⟨"S1", "E1", "AVAILABLE", 8 * 3600 + 600 + i⟩)

/-- The same bucket with 2 additional OUTOFORDER records. -/
def s1OutRecords : List CanonRecord :=
  s1BaseRecords ++
    (List.range 2).map (fun i => ⟨"S1", "E1", "OUTOFORDER", 8 * 3600 + 1200 + i⟩)

/-! # Theorems -/

/-- C1. For the downtime detector applied to the single connector `C1`
whose 26 hour-sorted rows carry `charging_count` values `[0,0,0,5,` 21 zeros,
`3]`: with `gap_hours = 24` the output row has `num_downtime_events = 0`;
with `gap_hours = 20` it has `num_downtime_events = 1` and
`total_downtime_hours = 21` (runs are the maximal blocks of constant
`is_zero`, and only all-zero runs of length ≥ `gap_hours` qualify). -/
theorem C1_downtime_scenario :
    compute_reliability_downtime c1ScenarioRows 24 = [("C1", 0, 0)] ∧
    compute_reliability_downtime c1ScenarioRows 20 = [("C1", 1, 21)] := by
  decide

/-- Summing an indicator of a fixed value over a duplicate-free list that
contains the value gives 1. -/
theorem sum_indicator_eq_one (x : String) :
    ∀ cols : List String, cols.Nodup → x ∈ cols →
      (cols.map (fun s => if x = s then 1 else 0)).sum = 1 := by
  intro cols
  induction cols with
  | nil => intro _ hx; cases hx
  | cons c cs ih =>
    intro hnd hx
    rcases List.mem_cons.mp hx with rfl | hx
    · have hzero : ((cs.map (fun s => if x = s then 1 else 0)).sum : Nat) = 0 := by
        apply List.sum_eq_zero
        intro n hn
        rcases List.mem_map.mp hn with ⟨s, hs, rfl⟩
        have : x ≠ s := fun h => (List.nodup_cons.mp hnd).1 (h ▸ hs)
        simp [this]
      simp [hzero]
    · have hne : x ≠ c := fun h => (List.nodup_cons.mp hnd).1 (h ▸ hx)
      have := ih (List.nodup_cons.mp hnd).2 hx
      simp [hne, this]

/-- Partitioning a record list by status over a duplicate-free column list
covering every status recovers the total length: the row-wise sum over the
pivoted status columns equals the bucket size. -/
theorem sum_status_filter_length (cols : List String) (m : List CanonRecord)
    (hnd : cols.Nodup) (hcov : ∀ r ∈ m, r.status ∈ cols) :
    (cols.map (fun s => (m.filter (fun r => r.status = s)).length)).sum =
      m.length := by
  induction m with
  | nil => simp [List.sum_eq_zero]
  | cons r m ih =>
    have hcov' : ∀ x ∈ m, x.status ∈ cols := fun x hx => hcov x (List.mem_cons_of_mem r hx)
    have step :
        (cols.map (fun s => ((r :: m).filter (fun x => x.status = s)).length)).sum =
          (cols.map (fun s =>
            (m.filter (fun x => x.status = s)).length + if r.status = s then 1 else 0)).sum := by
      apply congrArg
      apply List.map_congr_left
      intro s _
      by_cases h : r.status = s <;> simp [List.filter_cons, h]
    rw [step, List.sum_map_add, ih hcov',
      sum_indicator_eq_one r.status cols hnd (hcov r (List.mem_cons_self r m))]
    simp [Nat.add_comm]

/-- Every status of the records of a bucket is an observed-status column. -/
theorem keyRecords_status_mem (f : CanonRecord → String) (l : List CanonRecord)
    (e : String) (h : Nat) :
    ∀ r ∈ keyRecords f l e h, r.status ∈ observedStatuses l := by
  intro r hr
  have hl : r ∈ l := (List.mem_filter.mp hr).1
  exact List.mem_dedup.mpr (List.mem_map.mpr ⟨r, hl, rfl⟩)

/-- The `total` column of a built row is the size of its bucket. -/
theorem mkHourlyRow_total (f : CanonRecord → String) (l : List CanonRecord)
    (k : String × Nat) :
    (mkHourlyRow f l k).total = (keyRecords f l k.1 k.2).length := by
  show (((observedStatuses l).map (fun s => cellCount f l k.1 k.2 s)).sum) = _
  unfold cellCount
  exact sum_status_filter_length (observedStatuses l) (keyRecords f l k.1 k.2)
    (List.nodup_dedup _) (keyRecords_status_mem f l k.1 k.2)

/-- A key of the table has a nonempty bucket. -/
theorem keyRecords_ne_nil (f : CanonRecord → String) (l : List CanonRecord)
    (k : String × Nat) (hk : k ∈ hourlyKeys f l) :
    keyRecords f l k.1 k.2 ≠ [] := by
  rcases List.mem_map.mp (List.mem_dedup.mp hk) with ⟨r, hr, heq⟩
  have h1 : f r = k.1 := congrArg Prod.fst heq
  have h2 : hourOf r = k.2 := congrArg Prod.snd heq
  have : r ∈ keyRecords f l k.1 k.2 := by
    unfold keyRecords
    rw [List.mem_filter]
    exact ⟨hr, by simp [h1, h2]⟩
  exact List.ne_nil_of_mem this

/-- The `charging` column of a built row is at most its `total`. -/
theorem mkHourlyRow_charging_le (f : CanonRecord → String) (l : List CanonRecord)
    (k : String × Nat) :
    (mkHourlyRow f l k).charging ≤ (mkHourlyRow f l k).total := by
  rw [mkHourlyRow_total]
  show (if "CHARGING" ∈ observedStatuses l then cellCount f l k.1 k.2 "CHARGING" else 0) ≤ _
  split
  · exact List.length_filter_le _ _
  · exact Nat.zero_le _

/-- C4. Every row of an hourly count table produced by the aggregator
(both the station-level and the connector-level instantiation) satisfies:
`total` is the sum of the per-status count columns, `0 ≤ charging ≤ total`,
`total > 0` (no empty bucket is emitted), and
`occupancy_rate = charging / total` lies in `[0, 1]`. -/
theorem C4_hourly_row_invariants (f : CanonRecord → String)
    (l : List CanonRecord) (row : HourlyRow) (hrow : row ∈ buildHourlyTable f l) :
    row.total = (row.statusCounts.map Prod.snd).sum ∧
    0 ≤ row.charging ∧ row.charging ≤ row.total ∧ 0 < row.total ∧
    row.occupancy_rate = (row.charging : ℚ) / (row.total : ℚ) ∧
    0 ≤ row.occupancy_rate ∧ row.occupancy_rate ≤ 1 := by
  rcases List.mem_map.mp hrow with ⟨k, hk, rfl⟩
  have htot : (mkHourlyRow f l k).total = (keyRecords f l k.1 k.2).length :=
    mkHourlyRow_total f l k
  have hsum : (mkHourlyRow f l k).total = ((mkHourlyRow f l k).statusCounts.map Prod.snd).sum := by
    show ((observedStatuses l).map (fun s => cellCount f l k.1 k.2 s)).sum =
      (((observedStatuses l).map (fun s => (s, cellCount f l k.1 k.2 s))).map Prod.snd).sum
    rw [List.map_map]
    rfl
  have hch : (mkHourlyRow f l k).charging ≤ (mkHourlyRow f l k).total :=
    mkHourlyRow_charging_le f l k
  have hpos : 0 < (mkHourlyRow f l k).total := by
    rw [htot]
    exact List.length_pos.mpr (keyRecords_ne_nil f l k hk)
  have hrate : (mkHourlyRow f l k).occupancy_rate =
      ((mkHourlyRow f l k).charging : ℚ) / ((mkHourlyRow f l k).total : ℚ) := rfl
  refine ⟨hsum, Nat.zero_le _, hch, hpos, hrate, ?_, ?_⟩
  · rw [hrate]
    positivity
  · rw [hrate]
    rw [div_le_one (by exact_mod_cast hpos)]
    exact_mod_cast hch

/-- Witness for C4: a concrete one-record input, its unique table row, and
the invariants at that row. -/
theorem C4_hourly_row_invariants_witness :
    mkHourlyRow (fun r => r.station_id) [⟨"S", "E", "CHARGING", 0⟩] ("S", 0) ∈
      buildHourlyTable (fun r => r.station_id) [⟨"S", "E", "CHARGING", 0⟩] ∧
    0 < (mkHourlyRow (fun r => r.station_id) [⟨"S", "E", "CHARGING", 0⟩] ("S", 0)).total := by
  have hmem : mkHourlyRow (fun r => r.station_id) [⟨"S", "E", "CHARGING", 0⟩] ("S", 0) ∈
      buildHourlyTable (fun r => r.station_id) [⟨"S", "E", "CHARGING", 0⟩] := by
    have hkeys : hourlyKeys (fun r => r.station_id) [⟨"S", "E", "CHARGING", 0⟩] =
        [("S", 0)] := by decide
    show _ ∈ (hourlyKeys (fun r => r.station_id) _).map _
    rw [hkeys]
    exact List.mem_singleton.mpr rfl
  exact ⟨hmem,
    (C4_hourly_row_invariants (fun r => r.station_id) _ _ hmem).2.2.2.1⟩

/-- Characterisation of a successful `data_prep_main` run. -/
theorem data_prep_main_ok_eq (files : List (List RawRecord)) (n : Nat)
    (h1 : files ≠ []) (h2 : (files.take n).flatten ≠ [])
    (h3 : normalizeRecords ((files.take n).flatten) ≠ []) :
    data_prep_main files n =
      .ok
        { report :=
            { totalRecords := (normalizeRecords ((files.take n).flatten)).length,
              unknownCount :=
                ((normalizeRecords ((files.take n).flatten)).filter
                  (fun r => r.status = "UNKNOWN")).length,
              unknownPct :=
                (((normalizeRecords ((files.take n).flatten)).filter
                    (fun r => r.status = "UNKNOWN")).length : ℚ) /
                  ((normalizeRecords ((files.take n).flatten)).length : ℚ) * 100,
              decision :=
                "Decision: Excluded UNKNOWN status from occupancy metrics." },
          cleanRecords :=
            (normalizeRecords ((files.take n).flatten)).filter
              (fun r => r.status ≠ "UNKNOWN"),
          stationTable :=
            buildHourlyTable (fun r => r.station_id)
              ((normalizeRecords ((files.take n).flatten)).filter
                (fun r => r.status ≠ "UNKNOWN")),
          evseTable :=
            buildHourlyTable (fun r => r.evse_id)
              ((normalizeRecords ((files.take n).flatten)).filter
                (fun r => r.status ≠ "UNKNOWN")) } := by
  have e1 : files.isEmpty = false := by
    cases files with
    | nil => exact absurd rfl h1
    | cons a as => rfl
  have e2 : ((files.take n).flatten).isEmpty = false := by
    cases h : (files.take n).flatten with
    | nil => exact absurd h h2
    | cons a as => rfl
  have e3 : ¬ ((normalizeRecords ((files.take n).flatten)).length = 0) := by
    intro hlen
    exact h3 (List.length_eq_zero.mp hlen)
  simp only [data_prep_main, e1, e2, Bool.false_eq_true, if_false, if_neg e3]

/-- C8. On every successful run, every canonical record that reaches the
aggregator has `status ≠ UNKNOWN` (both hourly tables are built from exactly
those records), and the exclusion magnitude — total record count, UNKNOWN
count, UNKNOWN percentage, and the decision line — is written to the report
artifact. -/
theorem C8_unknown_excluded_and_reported (files : List (List RawRecord)) (n : Nat)
    (h1 : files ≠ []) (h2 : (files.take n).flatten ≠ [])
    (h3 : normalizeRecords ((files.take n).flatten) ≠ []) :
    ∃ out, data_prep_main files n = .ok out ∧
      (∀ r ∈ out.cleanRecords, r.status ≠ "UNKNOWN") ∧
      out.stationTable = buildHourlyTable (fun r => r.station_id) out.cleanRecords ∧
      out.evseTable = buildHourlyTable (fun r => r.evse_id) out.cleanRecords ∧
      out.report.totalRecords = (normalizeRecords ((files.take n).flatten)).length ∧
      out.report.unknownCount =
        ((normalizeRecords ((files.take n).flatten)).filter
          (fun r => r.status = "UNKNOWN")).length ∧
      out.report.unknownPct =
        ((out.report.unknownCount : ℚ) / (out.report.totalRecords : ℚ)) * 100 ∧
      out.report.decision =
        "Decision: Excluded UNKNOWN status from occupancy metrics." := by
  refine ⟨_, data_prep_main_ok_eq files n h1 h2 h3, ?_, rfl, rfl, rfl, rfl, rfl, rfl⟩
  intro r hr
  have := (List.mem_filter.mp hr).2
  simpa using this

/-- Witness for C8: a two-record input (one CHARGING, one UNKNOWN). -/
theorem C8_unknown_excluded_and_reported_witness :
    ([[RawRecord.mk (some "S") (some "E") (some "CHARGING") (some 0),
       RawRecord.mk (some "S") (some "E") (some "UNKNOWN") (some 10)]] ≠
        ([] : List (List RawRecord))) ∧
    (([[RawRecord.mk (some "S") (some "E") (some "CHARGING") (some 0),
        RawRecord.mk (some "S") (some "E") (some "UNKNOWN") (some 10)]].take 500).flatten ≠ []) ∧
    (normalizeRecords
        (([[RawRecord.mk (some "S") (some "E") (some "CHARGING") (some 0),
            RawRecord.mk (some "S") (some "E") (some "UNKNOWN") (some 10)]].take 500).flatten) ≠ []) ∧
    (∃ out,
      data_prep_main
          [[RawRecord.mk (some "S") (some "E") (some "CHARGING") (some 0),
            RawRecord.mk (some "S") (some "E") (some "UNKNOWN") (some 10)]] 500 = .ok out ∧
      (∀ r ∈ out.cleanRecords, r.status ≠ "UNKNOWN") ∧
      out.stationTable = buildHourlyTable (fun r => r.station_id) out.cleanRecords ∧
      out.evseTable = buildHourlyTable (fun r => r.evse_id) out.cleanRecords ∧
      out.report.totalRecords =
        (normalizeRecords
          (([[RawRecord.mk (some "S") (some "E") (some "CHARGING") (some 0),
              RawRecord.mk (some "S") (some "E") (some "UNKNOWN") (some 10)]].take 500).flatten)).length ∧
      out.report.unknownCount =
        ((normalizeRecords
          (([[RawRecord.mk (some "S") (some "E") (some "CHARGING") (some 0),
              RawRecord.mk (some "S") (some "E") (some "UNKNOWN") (some 10)]].take 500).flatten)).filter
          (fun r => r.status = "UNKNOWN")).length ∧
      out.report.unknownPct =
        ((out.report.unknownCount : ℚ) / (out.report.totalRecords : ℚ)) * 100 ∧
      out.report.decision =
        "Decision: Excluded UNKNOWN status from occupancy metrics.") :=
  ⟨by decide, by decide, by decide,
    C8_unknown_excluded_and_reported _ 500 (by decide) (by decide) (by decide)⟩

/-- C3 counterexample. A run whose single parsed record is dropped by
the null-field filter (missing `station_id`) halts with the uncaught
`ZeroDivisionError` of the UNKNOWN-percentage computation (line 77), not
with the explicitly reported empty-input exit (`noAvroFiles`, the only
branch that prints a message and exits): the claim that the run *reports the
empty-input condition* fails on this input — the halt is an incidental
division-by-zero crash. -/
theorem C3_counterexample_no_report :
    data_prep_main [[RawRecord.mk none (some "E1") (some "AVAILABLE") (some 0)]] 500 =
      .error .zeroDivisionError ∧
    PrepError.zeroDivisionError ≠ PrepError.noAvroFiles := by
  exact ⟨rfl, by decide⟩

/-- C3 amended. Whenever the per-record null-field / timestamp filters
leave zero qualifying records, `data_prep_main` halts before computing any
downstream table — never returning `.ok` — but only the no-files case is an
explicit report-and-exit; with files present the halt is an uncaught
exception (`KeyError` on the column-less empty frame when no records parsed
at all, otherwise the `ZeroDivisionError` of the UNKNOWN-percentage
computation).  Records dropped solely by the UNKNOWN-status filter do not
trigger any empty-input halt. -/
theorem C3_empty_input_halts (files : List (List RawRecord)) (n : Nat)
    (hempty : normalizeRecords ((files.take n).flatten) = []) :
    (files = [] → data_prep_main files n = .error .noAvroFiles) ∧
    (files ≠ [] → (files.take n).flatten = [] →
      data_prep_main files n = .error .keyErrorEmptyFrame) ∧
    (files ≠ [] → (files.take n).flatten ≠ [] →
      data_prep_main files n = .error .zeroDivisionError) ∧
    (∀ out, data_prep_main files n ≠ .ok out) := by
  have hmain : ∀ (hf : files ≠ []) (hfl : (files.take n).flatten ≠ []),
      data_prep_main files n = .error .zeroDivisionError := by
    intro hf hfl
    have e1 : files.isEmpty = false := by
      cases files with
      | nil => exact absurd rfl hf
      | cons a as => rfl
    have e2 : ((files.take n).flatten).isEmpty = false := by
      cases h : (files.take n).flatten with
      | nil => exact absurd h hfl
      | cons a as => rfl
    have e3 : (normalizeRecords ((files.take n).flatten)).length = 0 :=
      hempty ▸ rfl
    simp only [data_prep_main, e1, e2, Bool.false_eq_true, if_false, if_pos e3]
  refine ⟨?_, ?_, hmain, ?_⟩
  · intro hf
    subst hf
    rfl
  · intro hf hfl
    have e1 : files.isEmpty = false := by
      cases files with
      | nil => exact absurd rfl hf
      | cons a as => rfl
    have e2 : ((files.take n).flatten).isEmpty = true := by rw [hfl]; rfl
    simp only [data_prep_main, e1, e2, Bool.false_eq_true, if_false, if_true]
  · intro out hok
    by_cases hf : files = []
    · subst hf
      exact Except.noConfusion (hok.symm.trans rfl)
    · by_cases hfl : (files.take n).flatten = []
      · have e1 : files.isEmpty = false := by
          cases files with
          | nil => exact absurd rfl hf
          | cons a as => rfl
        have e2 : ((files.take n).flatten).isEmpty = true := by rw [hfl]; rfl
        have : data_prep_main files n = .error .keyErrorEmptyFrame := by
          simp only [data_prep_main, e1, e2, Bool.false_eq_true, if_false, if_true]
        rw [this] at hok
        exact Except.noConfusion hok
      · rw [hmain hf hfl] at hok
        exact Except.noConfusion hok

/-- Witness for C3 (amended): the counterexample input, with the empty-result
hypothesis discharged concretely. -/
theorem C3_empty_input_halts_witness :
    normalizeRecords
        (([[RawRecord.mk none (some "E1") (some "AVAILABLE") (some 0)]].take 500).flatten) = [] ∧
    (∀ out,
      data_prep_main [[RawRecord.mk none (some "E1") (some "AVAILABLE") (some 0)]] 500 ≠
        .ok out) :=
  ⟨by decide,
    (C3_empty_input_halts [[RawRecord.mk none (some "E1") (some "AVAILABLE") (some 0)]] 500
      (by decide)).2.2.2⟩

/-- C10. The refined pipeline requires an `AVAILABLE` status column: when
the input contains no `AVAILABLE` record, `compute_metrics_refined_main`
fails with the missing-column `KeyError` (line 142 indexes
`station_df[AVAILABLE]` unconditionally), whereas an absent `CHARGING`
column is tolerated by the aggregator via `agg.get(CHARGING, 0)`: every
built row then carries `charging = 0` and no error is raised. -/
theorem C10_refined_requires_available (l : List CanonRecord) :
    ((∀ r ∈ l, r.status ≠ "AVAILABLE") →
      compute_metrics_refined_main l = .error (.keyError "AVAILABLE")) ∧
    ((∀ r ∈ l, r.status ≠ "CHARGING") →
      ∀ (f : CanonRecord → String) (row : HourlyRow),
        row ∈ buildHourlyTable f l → row.charging = 0) := by
  constructor
  · intro hav
    have hmem : "AVAILABLE" ∉ observedStatuses l := by
      intro hmem
      rcases List.mem_map.mp (List.mem_dedup.mp hmem) with ⟨r, hr, heq⟩
      exact hav r hr heq
    simp only [compute_metrics_refined_main, if_neg hmem]
  · intro hch f row hrow
    have hmem : "CHARGING" ∉ observedStatuses l := by
      intro hmem
      rcases List.mem_map.mp (List.mem_dedup.mp hmem) with ⟨r, hr, heq⟩
      exact hch r hr heq
    rcases List.mem_map.mp hrow with ⟨k, _, rfl⟩
    show (if "CHARGING" ∈ observedStatuses l then _ else 0) = 0
    rw [if_neg hmem]

/-- Rows of an hourly table are determined by their `(entity, hour)` key:
the table has one row per distinct group key. -/
theorem buildHourlyTable_eq_of_key (f : CanonRecord → String)
    (l : List CanonRecord) {row1 row2 : HourlyRow}
    (h1 : row1 ∈ buildHourlyTable f l) (h2 : row2 ∈ buildHourlyTable f l)
    (he : row1.entity = row2.entity) (hh : row1.hour = row2.hour) :
    row1 = row2 := by
  rcases List.mem_map.mp h1 with ⟨k1, _, rfl⟩
  rcases List.mem_map.mp h2 with ⟨k2, _, rfl⟩
  have hk : k1 = k2 := Prod.ext he hh
  rw [hk]

/-- C5. In the refined variant the occupancy rate is
`charging / (charging + available)`, and exactly the rows with zero
denominator are excluded from the refined table (dropped, not zero-filled).
Concretely, for the bucket {CHARGING: 3, AVAILABLE: 7} the refined rate is
`3/10` with or without an extra OUTOFORDER: 2 count, while the baseline rate
moves from `3/10` to `3/12 = 1/4` when it is added. -/
theorem C5_refined_ratio_and_scenario :
    (∀ l : List CanonRecord,
      (∀ row ∈ refinedStationTable l,
        row.charging + availableOf row ≠ 0 ∧
        row.occupancy_rate =
          (row.charging : ℚ) / ((row.charging : ℚ) + (availableOf row : ℚ))) ∧
      (∀ row ∈ buildHourlyTable (fun r => r.station_id) l,
        row.charging + availableOf row ≠ 0 →
          ∃ row2 ∈ refinedStationTable l,
            row2.entity = row.entity ∧ row2.hour = row.hour) ∧
      (∀ row ∈ buildHourlyTable (fun r => r.station_id) l,
        row.charging + availableOf row = 0 →
          ∀ row2 ∈ refinedStationTable l,
            ¬(row2.entity = row.entity ∧ row2.hour = row.hour))) ∧
    ((buildHourlyTable (fun r => r.station_id) s1BaseRecords).map
      (fun row => row.occupancy_rate)) = [3 / 10] ∧
    ((refinedStationTable s1BaseRecords).map
      (fun row => row.occupancy_rate)) = [3 / 10] ∧
    ((buildHourlyTable (fun r => r.station_id) s1OutRecords).map
      (fun row => row.occupancy_rate)) = [1 / 4] ∧
    ((refinedStationTable s1OutRecords).map
      (fun row => row.occupancy_rate)) = [3 / 10] := by
  have hgen : ∀ l : List CanonRecord,
      (∀ row ∈ refinedStationTable l,
        row.charging + availableOf row ≠ 0 ∧
        row.occupancy_rate =
          (row.charging : ℚ) / ((row.charging : ℚ) + (availableOf row : ℚ))) ∧
      (∀ row ∈ buildHourlyTable (fun r => r.station_id) l,
        row.charging + availableOf row ≠ 0 →
          ∃ row2 ∈ refinedStationTable l,
            row2.entity = row.entity ∧ row2.hour = row.hour) ∧
      (∀ row ∈ buildHourlyTable (fun r => r.station_id) l,
        row.charging + availableOf row = 0 →
          ∀ row2 ∈ refinedStationTable l,
            ¬(row2.entity = row.entity ∧ row2.hour = row.hour)) := by
    intro l
    refine ⟨?_, ?_, ?_⟩
    · intro row hrow
      rcases List.mem_map.mp hrow with ⟨row0, hrow0, rfl⟩
      have hcond : row0.charging + availableOf row0 ≠ 0 :=
        of_decide_eq_true (List.mem_filter.mp hrow0).2
      exact ⟨hcond, rfl⟩
    · intro row hrow hcond
      refine ⟨{ row with occupancy_rate :=
          (row.charging : ℚ) / ((row.charging : ℚ) + (availableOf row : ℚ)) },
        List.mem_map.mpr ⟨row, List.mem_filter.mpr ⟨hrow, decide_eq_true hcond⟩, rfl⟩,
        rfl, rfl⟩
    · intro row hrow hzero row2 hrow2 hkey
      rcases List.mem_map.mp hrow2 with ⟨row1, hrow1, rfl⟩
      have hcond : row1.charging + availableOf row1 ≠ 0 :=
        of_decide_eq_true (List.mem_filter.mp hrow1).2
      have hmem1 : row1 ∈ buildHourlyTable (fun r => r.station_id) l :=
        (List.mem_filter.mp hrow1).1
      have : row1 = row :=
        buildHourlyTable_eq_of_key (fun r => r.station_id) l hmem1 hrow hkey.1 hkey.2
      rw [this] at hcond
      exact hcond hzero
  have hk1 : hourlyKeys (fun r => r.station_id) s1BaseRecords = [("S1", 8)] := by decide
  have hk2 : hourlyKeys (fun r => r.station_id) s1OutRecords = [("S1", 8)] := by decide
  have htbl1 : buildHourlyTable (fun r => r.station_id) s1BaseRecords =
      [mkHourlyRow (fun r => r.station_id) s1BaseRecords ("S1", 8)] := by
    show (hourlyKeys (fun r => r.station_id) s1BaseRecords).map _ = _
    rw [hk1]; rfl
  have htbl2 : buildHourlyTable (fun r => r.station_id) s1OutRecords =
      [mkHourlyRow (fun r => r.station_id) s1OutRecords ("S1", 8)] := by
    show (hourlyKeys (fun r => r.station_id) s1OutRecords).map _ = _
    rw [hk2]; rfl
  have hch1 : (mkHourlyRow (fun r => r.station_id) s1BaseRecords ("S1", 8)).charging = 3 := by
    decide
  have htot1 : (mkHourlyRow (fun r => r.station_id) s1BaseRecords ("S1", 8)).total = 10 := by
    decide
  have hav1 : availableOf (mkHourlyRow (fun r => r.station_id) s1BaseRecords ("S1", 8)) = 7 := by
    decide
  have hch2 : (mkHourlyRow (fun r => r.station_id) s1OutRecords ("S1", 8)).charging = 3 := by
    decide
  have htot2 : (mkHourlyRow (fun r => r.station_id) s1OutRecords ("S1", 8)).total = 12 := by
    decide
  have hav2 : availableOf (mkHourlyRow (fun r => r.station_id) s1OutRecords ("S1", 8)) = 7 := by
    decide
  have hrate1 : (mkHourlyRow (fun r => r.station_id) s1BaseRecords ("S1", 8)).occupancy_rate =
      ((mkHourlyRow (fun r => r.station_id) s1BaseRecords ("S1", 8)).charging : ℚ) /
        ((mkHourlyRow (fun r => r.station_id) s1BaseRecords ("S1", 8)).total : ℚ) := rfl
  have hrate2 : (mkHourlyRow (fun r => r.station_id) s1OutRecords ("S1", 8)).occupancy_rate =
      ((mkHourlyRow (fun r => r.station_id) s1OutRecords ("S1", 8)).charging : ℚ) /
        ((mkHourlyRow (fun r => r.station_id) s1OutRecords ("S1", 8)).total : ℚ) := rfl
  have href1 : refinedStationTable s1BaseRecords =
      [{ mkHourlyRow (fun r => r.station_id) s1BaseRecords ("S1", 8) with
          occupancy_rate :=
            ((mkHourlyRow (fun r => r.station_id) s1BaseRecords ("S1", 8)).charging : ℚ) /
              (((mkHourlyRow (fun r => r.station_id) s1BaseRecords ("S1", 8)).charging : ℚ) +
                ((availableOf (mkHourlyRow (fun r => r.station_id) s1BaseRecords ("S1", 8))) : ℚ)) }] := by
    unfold refinedStationTable
    rw [htbl1]
    have hcondtrue :
        (decide ((mkHourlyRow (fun r => r.station_id) s1BaseRecords ("S1", 8)).charging +
          availableOf (mkHourlyRow (fun r => r.station_id) s1BaseRecords ("S1", 8)) ≠ 0)) = true := by
      rw [hch1, hav1]
      decide
    simp only [List.filter_cons, List.filter_nil, hcondtrue, if_true, List.map_cons,
      List.map_nil]
  have href2 : refinedStationTable s1OutRecords =
      [{ mkHourlyRow (fun r => r.station_id) s1OutRecords ("S1", 8) with
          occupancy_rate :=
            ((mkHourlyRow (fun r => r.station_id) s1OutRecords ("S1", 8)).charging : ℚ) /
              (((mkHourlyRow (fun r => r.station_id) s1OutRecords ("S1", 8)).charging : ℚ) +
                ((availableOf (mkHourlyRow (fun r => r.station_id) s1OutRecords ("S1", 8))) : ℚ)) }] := by
    unfold refinedStationTable
    rw [htbl2]
    have hcondtrue :
        (decide ((mkHourlyRow (fun r => r.station_id) s1OutRecords ("S1", 8)).charging +
          availableOf (mkHourlyRow (fun r => r.station_id) s1OutRecords ("S1", 8)) ≠ 0)) = true := by
      rw [hch2, hav2]
      decide
    simp only [List.filter_cons, List.filter_nil, hcondtrue, if_true, List.map_cons,
      List.map_nil]
  refine ⟨hgen, ?_, ?_, ?_, ?_⟩
  · rw [htbl1, List.map_cons, List.map_nil, hrate1, hch1, htot1]
    norm_num
  · rw [href1, List.map_cons, List.map_nil]
    dsimp only
    rw [hch1, hav1]
    norm_num
  · rw [htbl2, List.map_cons, List.map_nil, hrate2, hch2, htot2]
    norm_num
  · rw [href2, List.map_cons, List.map_nil]
    dsimp only
    rw [hch2, hav2]
    norm_num

/-- Witness for C5: the concrete bucket of the spec, via the theorem. -/
theorem C5_refined_ratio_and_scenario_witness :
    ((buildHourlyTable (fun r => r.station_id) s1BaseRecords).map
      (fun row => row.occupancy_rate)) = [3 / 10] :=
  C5_refined_ratio_and_scenario.2.1

/-- Witness for C10: a single OUTOFORDER record — no AVAILABLE status
observed, so the refined entry point fails with the missing-column error. -/
theorem C10_refined_requires_available_witness :
    compute_metrics_refined_main [⟨"S", "E", "OUTOFORDER", 0⟩] =
      .error (.keyError "AVAILABLE") :=
  (C10_refined_requires_available [⟨"S", "E", "OUTOFORDER", 0⟩]).1 (by decide)

/-- C9. The baseline analytics entry point never produces its outputs:
`compute_metrics.main` refers to `compute_capacity_pressure`, a name the
module does not define (it defines `compute_capacity_pressure_messages`), so
for every input `main` fails with the unresolved-name error before writing
any of the five analytics tables. -/
theorem C9_baseline_main_never_writes :
    (∀ (station_df : List StRow) (evse_df : List EvseRow),
      compute_metrics_main station_df evse_df =
        .error (.nameError "compute_capacity_pressure")) ∧
    "compute_capacity_pressure" ∉ compute_metrics_defined_names ∧
    "compute_capacity_pressure_messages" ∈ compute_metrics_defined_names ∧
    (∀ (station_df : List StRow) (evse_df : List EvseRow) (out : AnalyticsOutputs),
      compute_metrics_main station_df evse_df ≠ .ok out) := by
  refine ⟨fun _ _ => rfl, by decide, by decide, fun s e out h => ?_⟩
  exact Except.noConfusion ((rfl : compute_metrics_main s e = _).symm.trans h)

/-- Witness for C9: the failure at a concrete (empty) input. -/
theorem C9_baseline_main_never_writes_witness :
    compute_metrics_main [] [] = .error (.nameError "compute_capacity_pressure") :=
  C9_baseline_main_never_writes.1 [] []

/-- The run segmentation partitions the input: flattening the runs gives the
input sequence back. -/
theorem groupRunsAux_flatten {α : Type} (flag : α → Bool) :
    ∀ l : List α, (groupRunsAux flag l).flatten = l := by
  intro l
  induction l with
  | nil => rfl
  | cons a as ih =>
    cases h : groupRunsAux flag as with
    | nil =>
      rw [h] at ih
      simp only [List.flatten_nil] at ih
      simp [groupRunsAux, h, ← ih]
    | cons g gs =>
      rw [h] at ih
      cases g with
      | nil =>
        simp only [groupRunsAux, h]
        simp only [List.flatten_cons, List.nil_append] at ih
        simp [ih]
      | cons b g2 =>
        simp only [groupRunsAux, h]
        by_cases hf : flag a = flag b
        · simp only [if_pos hf, List.flatten_cons]
          simp only [List.flatten_cons] at ih
          simp [ih]
        · simp only [if_neg hf, List.flatten_cons]
          simp only [List.flatten_cons] at ih
          simp [ih]

/-- Runs are nonempty. -/
theorem groupRunsAux_ne_nil {α : Type} (flag : α → Bool) :
    ∀ l : List α, ∀ g ∈ groupRunsAux flag l, g ≠ [] := by
  intro l
  induction l with
  | nil => intro g hg; cases hg
  | cons a as ih =>
    intro g hg
    cases h : groupRunsAux flag as with
    | nil =>
      simp only [groupRunsAux, h] at hg
      simp only [List.mem_singleton] at hg
      simp [hg]
    | cons g0 gs =>
      rw [h] at ih
      cases g0 with
      | nil =>
        simp only [groupRunsAux, h] at hg
        rcases List.mem_cons.mp hg with rfl | hmem
        · simp
        · exact ih g (List.mem_cons_of_mem _ hmem)
      | cons b g2 =>
        simp only [groupRunsAux, h] at hg
        by_cases hf : flag a = flag b
        · rw [if_pos hf] at hg
          rcases List.mem_cons.mp hg with rfl | hmem
          · simp
          · exact ih g (List.mem_cons_of_mem _ hmem)
        · rw [if_neg hf] at hg
          rcases List.mem_cons.mp hg with rfl | hmem
          · simp
          · exact ih g hmem

/-- Within one run the flag is constant. -/
theorem groupRunsAux_flag_const {α : Type} (flag : α → Bool) :
    ∀ l : List α, ∀ g ∈ groupRunsAux flag l, ∀ x ∈ g, ∀ y ∈ g, flag x = flag y := by
  intro l
  induction l with
  | nil => intro g hg; cases hg
  | cons a as ih =>
    intro g hg x hx y hy
    cases h : groupRunsAux flag as with
    | nil =>
      simp only [groupRunsAux, h] at hg
      simp only [List.mem_singleton] at hg
      subst hg
      simp only [List.mem_singleton] at hx hy
      rw [hx, hy]
    | cons g0 gs =>
      rw [h] at ih
      cases g0 with
      | nil =>
        simp only [groupRunsAux, h] at hg
        rcases List.mem_cons.mp hg with rfl | hmem
        · simp only [List.mem_singleton] at hx hy
          rw [hx, hy]
        · exact ih g (List.mem_cons_of_mem _ hmem) x hx y hy
      | cons b g2 =>
        simp only [groupRunsAux, h] at hg
        by_cases hf : flag a = flag b
        · rw [if_pos hf] at hg
          rcases List.mem_cons.mp hg with rfl | hmem
          · have hall : ∀ z ∈ a :: b :: g2, flag z = flag b := by
              intro z hz
              rcases List.mem_cons.mp hz with rfl | hz2
              · exact hf
              · exact ih (b :: g2) (List.mem_cons_self _ _) z hz2 b
                  (List.mem_cons_self _ _)
            rw [hall x hx, hall y hy]
          · exact ih g (List.mem_cons_of_mem _ hmem) x hx y hy
        · rw [if_neg hf] at hg
          rcases List.mem_cons.mp hg with rfl | hmem
          · simp only [List.mem_singleton] at hx hy
            rw [hx, hy]
          · exact ih g hmem x hx y hy

/-- A nonempty sequence of constant flag forms a single run. -/
theorem groupRunsAux_all_eq {α : Type} (flag : α → Bool) (c : Bool) :
    ∀ l : List α, l ≠ [] → (∀ x ∈ l, flag x = c) → groupRunsAux flag l = [l] := by
  intro l
  induction l with
  | nil => intro h; exact absurd rfl h
  | cons a as ih =>
    intro _ hall
    cases as with
    | nil => rfl
    | cons b as2 =>
      have hih : groupRunsAux flag (b :: as2) = [b :: as2] :=
        ih (by simp) (fun x hx => hall x (List.mem_cons_of_mem _ hx))
      have : flag a = flag b := by
        rw [hall a (List.mem_cons_self _ _), hall b (List.mem_cons_of_mem _ (List.mem_cons_self _ _))]
      rw [groupRunsAux, hih]
      dsimp only
      rw [if_pos this]

/-- Unfolding equation of `groupRunsAux` at a cons cell. -/
theorem groupRunsAux_cons {α : Type} (flag : α → Bool) (a : α) (as : List α) :
    groupRunsAux flag (a :: as) =
      match groupRunsAux flag as with
      | [] => [[a]]
      | [] :: gs => [a] :: gs
      | (b :: g) :: gs =>
        if flag a = flag b then (a :: b :: g) :: gs else [a] :: (b :: g) :: gs := rfl

/-- The run segmentation is determined by the flag sequence: two sequences
with the same flag images segment into runs with the same flag images (in
particular the same run count and run lengths). -/
theorem groupRunsAux_map_congr {α β : Type} (flag : α → Bool) (flag2 : β → Bool) :
    ∀ (l : List α) (l2 : List β), l.map flag = l2.map flag2 →
      (groupRunsAux flag l).map (fun g => g.map flag) =
        (groupRunsAux flag2 l2).map (fun g => g.map flag2) := by
  intro l
  induction l with
  | nil =>
    intro l2 h
    have hl2 : l2 = [] := by
      cases l2 with
      | nil => rfl
      | cons b bs => simp at h
    subst hl2; rfl
  | cons a as ih =>
    intro l2 h
    cases l2 with
    | nil => simp at h
    | cons b bs =>
      simp only [List.map_cons, List.cons.injEq] at h
      obtain ⟨hab, hrest⟩ := h
      have ih2 := ih bs hrest
      rw [groupRunsAux_cons flag a as, groupRunsAux_cons flag2 b bs]
      cases h3 : groupRunsAux flag as with
      | nil =>
        cases h4 : groupRunsAux flag2 bs with
        | nil =>
          dsimp only
          simp [hab]
        | cons g2 gs2 =>
          rw [h3, h4] at ih2
          simp at ih2
      | cons g gs =>
        cases h4 : groupRunsAux flag2 bs with
        | nil =>
          rw [h3, h4] at ih2
          simp at ih2
        | cons g2 gs2 =>
          rw [h3, h4] at ih2
          simp only [List.map_cons, List.cons.injEq] at ih2
          obtain ⟨hg, hgs⟩ := ih2
          cases g with
          | nil =>
            cases g2 with
            | nil =>
              dsimp only
              simp [hab, hgs]
            | cons y g2x => simp at hg
          | cons x gx =>
            cases g2 with
            | nil => simp at hg
            | cons y g2x =>
              simp only [List.map_cons, List.cons.injEq] at hg
              obtain ⟨hxy, hgx⟩ := hg
              dsimp only
              by_cases hfa : flag a = flag x
              · rw [if_pos hfa, if_pos (by rw [← hab, ← hxy]; exact hfa)]
                simp only [List.map_cons, List.cons.injEq]
                exact ⟨⟨hab, hxy, hgx⟩, hgs⟩
              · rw [if_neg hfa, if_neg (by rw [← hab, ← hxy]; exact hfa)]
                simp [hab, hxy, hgx, hgs]

/-- A run qualifies exactly as computed from its flag image. -/
theorem runQualifies_eq_of_flags (gap : Nat) (g : List EvseRow) :
    runQualifies gap g =
      (((g.map isZero).head?.getD false) && decide (gap ≤ (g.map isZero).length)) := by
  unfold runQualifies
  rw [List.head?_map, List.length_map]

/-- The per-connector detector pair `(num_downtime_events,
total_downtime_hours)` is a function of the flag images of the runs. -/
theorem downtime_counts_of_flags (gap : Nat) (G : List (List EvseRow)) :
    ((G.filter (runQualifies gap)).length,
      ((G.filter (runQualifies gap)).map List.length).sum) =
    (((G.map (fun g => g.map isZero)).filter
        (fun bs => bs.head?.getD false && decide (gap ≤ bs.length))).length,
      (((G.map (fun g => g.map isZero)).filter
        (fun bs => bs.head?.getD false && decide (gap ≤ bs.length))).map List.length).sum) := by
  have hfe : (G.map (fun g => g.map isZero)).filter
      (fun bs => bs.head?.getD false && decide (gap ≤ bs.length)) =
      (G.filter (runQualifies gap)).map (fun g => g.map isZero) := by
    rw [List.filter_map]
    apply congrArg
    apply List.filter_congr
    intro g _
    exact (runQualifies_eq_of_flags gap g).symm
  rw [hfe, List.length_map, List.map_map]
  have : (List.length ∘ fun g : List EvseRow => g.map isZero) = List.length := by
    funext g
    simp
  rw [this]

/-- C6. Downtime runs are determined solely by adjacency of rows in the
hour-sorted row list of the connector, not by calendar-hour continuity: the detector
output is a function of the sorted `charging_count` sequence alone (first
conjunct), two adjacent zero rows at non-consecutive hours 0 and 5 form a
single run (second conjunct), and a run is broken only by an intervening
non-zero row (third conjunct). -/
theorem C6_runs_by_row_adjacency :
    (∀ (rows rows2 : List EvseRow) (gap : Nat),
      (sortByHour rows).map (fun r => r.charging_count) =
        (sortByHour rows2).map (fun r => r.charging_count) →
      downtimeForEvse rows gap = downtimeForEvse rows2 gap) ∧
    downtimeForEvse [⟨"E", 0, 0⟩, ⟨"E", 5, 0⟩] 2 = (1, 2) ∧
    downtimeForEvse [⟨"E", 0, 0⟩, ⟨"E", 1, 7⟩, ⟨"E", 2, 0⟩] 1 = (2, 2) := by
  refine ⟨?_, by decide, by decide⟩
  intro rows rows2 gap h
  have hmapmap : ∀ l : List EvseRow,
      l.map isZero = (l.map (fun r => r.charging_count)).map (fun n => n == 0) := by
    intro l
    rw [List.map_map]
    rfl
  have hflag : (sortByHour rows).map isZero = (sortByHour rows2).map isZero := by
    rw [hmapmap, hmapmap, h]
  have hM := groupRunsAux_map_congr isZero isZero (sortByHour rows) (sortByHour rows2) hflag
  unfold downtimeForEvse groupRuns
  dsimp only
  rw [downtime_counts_of_flags gap (groupRunsAux isZero (sortByHour rows)),
    downtime_counts_of_flags gap (groupRunsAux isZero (sortByHour rows2)), hM]

/-- Witness for C6: the hour-invariance at two concrete row lists whose
sorted charging sequences agree while their hours differ. -/
theorem C6_runs_by_row_adjacency_witness :
    ((sortByHour [⟨"E", 0, 0⟩, ⟨"E", 5, 0⟩]).map (fun r => r.charging_count) =
      (sortByHour [⟨"E", 10, 0⟩, ⟨"E", 11, 0⟩]).map (fun r => r.charging_count)) ∧
    downtimeForEvse [⟨"E", 0, 0⟩, ⟨"E", 5, 0⟩] 2 =
      downtimeForEvse [⟨"E", 10, 0⟩, ⟨"E", 11, 0⟩] 2 :=
  ⟨by decide,
    C6_runs_by_row_adjacency.1 [⟨"E", 0, 0⟩, ⟨"E", 5, 0⟩]
      [⟨"E", 10, 0⟩, ⟨"E", 11, 0⟩] 2 (by decide)⟩

/-- Flattening preserves the sublist relation between lists of blocks. -/
theorem flatten_sublist_of_sublist {α : Type} {L1 L2 : List (List α)}
    (h : L1.Sublist L2) : L1.flatten.Sublist L2.flatten := by
  induction h with
  | slnil => exact List.Sublist.refl _
  | cons g _ ih =>
    rw [List.flatten_cons]
    exact List.sublist_append_of_sublist_right ih
  | cons₂ g _ ih =>
    rw [List.flatten_cons, List.flatten_cons]
    exact ih.append_left g

/-- C7. Downtime-run idempotence: for a connector with at least one
qualifying run, re-running the detector with the same `gap_hours` on the
rows of the qualifying runs of that connector yields exactly one run, whose
length is the originally reported `total_downtime_hours`. -/
theorem C7_downtime_idempotent (rows : List EvseRow) (gap : Nat)
    (h : 1 ≤ (downtimeForEvse rows gap).1) :
    downtimeForEvse (qualifyingRows rows gap) gap =
      (1, (downtimeForEvse rows gap).2) := by
  have hFlen : 1 ≤
      ((groupRunsAux isZero (sortByHour rows)).filter (runQualifies gap)).length := h
  have hFne : (groupRunsAux isZero (sortByHour rows)).filter (runQualifies gap) ≠ [] := by
    intro hnil
    rw [hnil] at hFlen
    simp at hFlen
  obtain ⟨g0, hg0⟩ := List.exists_mem_of_ne_nil _ hFne
  have hg0G : g0 ∈ groupRunsAux isZero (sortByHour rows) := List.mem_of_mem_filter hg0
  have hq0 : runQualifies gap g0 = true := List.of_mem_filter hg0
  have hg0ne : g0 ≠ [] := groupRunsAux_ne_nil isZero (sortByHour rows) g0 hg0G
  have hJsub :
      ((groupRunsAux isZero (sortByHour rows)).filter (runQualifies gap)).flatten.Sublist
        (sortByHour rows) := by
    have h2 := flatten_sublist_of_sublist
      (List.filter_sublist (l := groupRunsAux isZero (sortByHour rows)) (p := runQualifies gap))
    rwa [groupRunsAux_flatten] at h2
  have hLsorted : (sortByHour rows).Pairwise hourLE := List.sorted_insertionSort hourLE rows
  have hJsorted :
      ((groupRunsAux isZero (sortByHour rows)).filter (runQualifies gap)).flatten.Pairwise
        hourLE := hLsorted.sublist hJsub
  have hsortJ :
      sortByHour ((groupRunsAux isZero (sortByHour rows)).filter (runQualifies gap)).flatten =
        ((groupRunsAux isZero (sortByHour rows)).filter (runQualifies gap)).flatten :=
    List.Sorted.insertionSort_eq hJsorted
  have hallzero : ∀ x ∈
      ((groupRunsAux isZero (sortByHour rows)).filter (runQualifies gap)).flatten,
      isZero x = true := by
    intro x hx
    rcases List.mem_flatten.mp hx with ⟨g, hgF, hxg⟩
    have hgG : g ∈ groupRunsAux isZero (sortByHour rows) := List.mem_of_mem_filter hgF
    have hq : runQualifies gap g = true := List.of_mem_filter hgF
    cases hgshape : g with
    | nil => exact absurd hgshape (groupRunsAux_ne_nil isZero (sortByHour rows) g hgG)
    | cons y g2 =>
      have hy : isZero y = true := by
        rw [hgshape] at hq
        unfold runQualifies at hq
        simp at hq
        exact hq.1
      have hxy := groupRunsAux_flag_const isZero (sortByHour rows) g hgG x hxg y
        (by rw [hgshape]; exact List.mem_cons_self _ _)
      rw [hxy, hy]
  have hJne :
      ((groupRunsAux isZero (sortByHour rows)).filter (runQualifies gap)).flatten ≠ [] := by
    intro hnil
    exact hg0ne (List.flatten_eq_nil_iff.mp hnil g0 hg0)
  have hlenJ : gap ≤
      ((groupRunsAux isZero (sortByHour rows)).filter (runQualifies gap)).flatten.length := by
    have hlen0 : gap ≤ g0.length := by
      unfold runQualifies at hq0
      simp at hq0
      exact hq0.2
    have hle : g0.length ≤
        (((groupRunsAux isZero (sortByHour rows)).filter (runQualifies gap)).map
          List.length).sum :=
      List.single_le_sum (fun x _ => Nat.zero_le x) _ (List.mem_map_of_mem List.length hg0)
    rw [List.length_flatten]
    exact Nat.le_trans hlen0 hle
  have hruns : groupRunsAux isZero
      ((groupRunsAux isZero (sortByHour rows)).filter (runQualifies gap)).flatten =
      [((groupRunsAux isZero (sortByHour rows)).filter (runQualifies gap)).flatten] :=
    groupRunsAux_all_eq isZero true _ hJne hallzero
  have hqJ : runQualifies gap
      ((groupRunsAux isZero (sortByHour rows)).filter (runQualifies gap)).flatten = true := by
    cases hJ : ((groupRunsAux isZero (sortByHour rows)).filter (runQualifies gap)).flatten with
    | nil => exact absurd hJ hJne
    | cons x xs =>
      have hx : isZero x = true := hallzero x (hJ ▸ List.mem_cons_self x xs)
      have hlen2 : gap ≤ (x :: xs).length := hJ ▸ hlenJ
      unfold runQualifies
      simp only [List.length_cons] at hlen2
      simp [hx, hlen2]
  show downtimeForEvse
      ((groupRunsAux isZero (sortByHour rows)).filter (runQualifies gap)).flatten gap = _
  unfold downtimeForEvse groupRuns
  rw [hsortJ, hruns]
  show ((List.filter (runQualifies gap) [_]).length, _) =
    (1, (((groupRunsAux isZero (sortByHour rows)).filter (runQualifies gap)).map
      List.length).sum)
  rw [List.filter_cons, if_pos hqJ, List.filter_nil]
  simp [List.length_flatten]

/-- Witness for C7: three zero rows, `gap_hours = 2` — one qualifying run. -/
theorem C7_downtime_idempotent_witness :
    1 ≤ (downtimeForEvse [⟨"E", 0, 0⟩, ⟨"E", 1, 0⟩, ⟨"E", 2, 0⟩] 2).1 ∧
    downtimeForEvse (qualifyingRows [⟨"E", 0, 0⟩, ⟨"E", 1, 0⟩, ⟨"E", 2, 0⟩] 2) 2 =
      (1, (downtimeForEvse [⟨"E", 0, 0⟩, ⟨"E", 1, 0⟩, ⟨"E", 2, 0⟩] 2).2) :=
  ⟨by decide, C7_downtime_idempotent [⟨"E", 0, 0⟩, ⟨"E", 1, 0⟩, ⟨"E", 2, 0⟩] 2 (by decide)⟩

/-- The function `decide` distributes over conjunction. -/
theorem decide_and_eq (p q : Prop) [Decidable p] [Decidable q] :
    decide (p ∧ q) = (decide p && decide q) := by
  by_cases hp : p <;> by_cases hq : q <;> simp [hp, hq]

/-- Model of `groupby(station).head(top_n)` restricted to one station is the first
`top_n - cnt station` rows of that station, in order. -/
theorem headPerStation_filter (top_n : Nat) (e : String) :
    ∀ (l : List StRow) (cnt : String → Nat),
      (headPerStation top_n cnt l).filter (fun r => r.station_id = e) =
        (l.filter (fun r => r.station_id = e)).take (top_n - cnt e) := by
  intro l
  induction l with
  | nil => intro cnt; simp [headPerStation]
  | cons r rs ih =>
    intro cnt
    by_cases hsid : r.station_id = e
    · have hpr : (decide (r.station_id = e)) = true := decide_eq_true hsid
      by_cases hcnt : cnt r.station_id < top_n
      · have hcnte : cnt e < top_n := by rw [← hsid]; exact hcnt
        simp only [headPerStation, if_pos hcnt]
        rw [List.filter_cons, if_pos hpr, List.filter_cons, if_pos hpr]
        have harith : top_n - cnt e = (top_n - (cnt e + 1)) + 1 := by omega
        rw [harith, List.take_succ_cons,
          ih (fun s => if s = r.station_id then cnt s + 1 else cnt s),
          if_pos hsid.symm]
      · have hcnte : ¬ cnt e < top_n := by rw [← hsid]; exact hcnt
        simp only [headPerStation, if_neg hcnt]
        rw [ih (fun s => if s = r.station_id then cnt s + 1 else cnt s),
          if_pos hsid.symm, List.filter_cons, if_pos hpr]
        have h1 : top_n - (cnt e + 1) = 0 := by omega
        have h2 : top_n - cnt e = 0 := by omega
        rw [h1, h2, List.take_zero, List.take_zero]
    · have hpr : (decide (r.station_id = e)) = false := decide_eq_false hsid
      have hswap : ¬ e = r.station_id := fun hh => hsid hh.symm
      by_cases hcnt : cnt r.station_id < top_n
      · simp only [headPerStation, if_pos hcnt]
        rw [List.filter_cons, if_neg (by simp [hpr]), List.filter_cons,
          if_neg (by simp [hpr]),
          ih (fun s => if s = r.station_id then cnt s + 1 else cnt s),
          if_neg hswap]
      · simp only [headPerStation, if_neg hcnt]
        rw [List.filter_cons, if_neg (by simp [hpr]),
          ih (fun s => if s = r.station_id then cnt s + 1 else cnt s),
          if_neg hswap]

/-- The entity-restriction of the peak-period output is the first `top_n`
rows of the block of that entity in the sorted frame. -/
theorem compute_peak_periods_filter (df : List StRow) (top_n : Nat) (e : String) :
    (compute_peak_periods df top_n).filter (fun r => r.station_id = e) =
      ((df.insertionSort peakRel).filter (fun r => r.station_id = e)).take top_n := by
  show (headPerStation top_n (fun _ => 0) (df.insertionSort peakRel)).filter _ = _
  rw [headPerStation_filter top_n e (df.insertionSort peakRel) (fun _ => 0), Nat.sub_zero]

/-- C2. For every input table and entity, the peak-periods output
restricted to that entity has exactly `min top_n (rows of that entity)`
rows, is a subset of the input rows of that entity, is sorted by `occupancy_rate`
descending, and rows with equal `occupancy_rate` appear in their original
input order (the sort is stable): for each rate value, the restricted output
filtered to that rate is a sublist of the input table. -/
theorem C2_peak_periods_per_entity (df : List StRow) (top_n : Nat) (e : String) :
    ((compute_peak_periods df top_n).filter (fun r => r.station_id = e)).length =
      min top_n ((df.filter (fun r => r.station_id = e)).length) ∧
    (∀ r ∈ (compute_peak_periods df top_n).filter (fun r => r.station_id = e),
      r ∈ df.filter (fun r => r.station_id = e)) ∧
    ((compute_peak_periods df top_n).filter (fun r => r.station_id = e)).Pairwise
      (fun a b => b.occupancy_rate ≤ a.occupancy_rate) ∧
    (∀ q : ℚ,
      ((compute_peak_periods df top_n).filter
        (fun r => r.station_id = e ∧ r.occupancy_rate = q)).Sublist df) := by
  have hperm : (df.insertionSort peakRel).Perm df := List.perm_insertionSort peakRel df
  have hmain := compute_peak_periods_filter df top_n e
  have hlenf : ((df.insertionSort peakRel).filter (fun r => r.station_id = e)).length =
      ((df.filter (fun r => r.station_id = e)).length) :=
    (hperm.filter _).length_eq
  refine ⟨?_, ?_, ?_, ?_⟩
  · rw [hmain, List.length_take, hlenf]
  · intro r hr
    rw [hmain] at hr
    have hr2 := List.mem_of_mem_take hr
    rw [List.mem_filter] at hr2 ⊢
    exact ⟨(hperm.mem_iff).mp hr2.1, hr2.2⟩
  · rw [hmain]
    have hsorted : (df.insertionSort peakRel).Pairwise peakRel :=
      List.sorted_insertionSort peakRel df
    have hfsorted : ((df.insertionSort peakRel).filter
        (fun r => r.station_id = e)).Pairwise peakRel := hsorted.filter _
    have hdesc : ((df.insertionSort peakRel).filter
        (fun r => r.station_id = e)).Pairwise
        (fun a b => b.occupancy_rate ≤ a.occupancy_rate) := by
      refine List.Pairwise.imp_of_mem ?_ hfsorted
      intro a b ha hb hab
      have hae : a.station_id = e := of_decide_eq_true (List.mem_filter.mp ha).2
      have hbe : b.station_id = e := of_decide_eq_true (List.mem_filter.mp hb).2
      rcases hab with h | ⟨_, hr⟩
      · exfalso
        rw [hae, hbe] at h
        exact lt_irrefl _ h
      · exact hr
    exact hdesc.sublist (List.take_sublist _ _)
  · intro q
    have hP : (df.filter (fun r => r.station_id = e ∧ r.occupancy_rate = q)).Pairwise
        peakRel := by
      apply List.pairwise_of_forall_mem_list
      intro a ha b hb
      have ha2 : a.station_id = e ∧ a.occupancy_rate = q :=
        of_decide_eq_true (List.mem_filter.mp ha).2
      have hb2 : b.station_id = e ∧ b.occupancy_rate = q :=
        of_decide_eq_true (List.mem_filter.mp hb).2
      refine Or.inr ⟨ha2.1.trans hb2.1.symm, ?_⟩
      rw [ha2.2, hb2.2]
    have hsub : (df.filter (fun r => r.station_id = e ∧ r.occupancy_rate = q)).Sublist
        (df.insertionSort peakRel) :=
      List.sublist_insertionSort hP (List.filter_sublist df)
    have hself : (df.filter (fun r => r.station_id = e ∧ r.occupancy_rate = q)).filter
        (fun r => decide (r.station_id = e ∧ r.occupancy_rate = q)) =
        df.filter (fun r => r.station_id = e ∧ r.occupancy_rate = q) := by
      rw [List.filter_eq_self]
      intro a ha
      exact (List.mem_filter.mp ha).2
    have hsub2 : (df.filter (fun r => r.station_id = e ∧ r.occupancy_rate = q)).Sublist
        ((df.insertionSort peakRel).filter
          (fun r => r.station_id = e ∧ r.occupancy_rate = q)) := by
      rw [← hself]
      exact hsub.filter _
    have heq : (df.insertionSort peakRel).filter
        (fun r => r.station_id = e ∧ r.occupancy_rate = q) =
        df.filter (fun r => r.station_id = e ∧ r.occupancy_rate = q) := by
      refine (hsub2.eq_of_length ?_).symm
      exact ((hperm.filter _).length_eq).symm ▸ rfl
    have hout : ((compute_peak_periods df top_n).filter
        (fun r => r.station_id = e ∧ r.occupancy_rate = q)).Sublist
        ((df.insertionSort peakRel).filter
          (fun r => r.station_id = e ∧ r.occupancy_rate = q)) := by
      have hcomb : (compute_peak_periods df top_n).filter
          (fun r => r.station_id = e ∧ r.occupancy_rate = q) =
          (((compute_peak_periods df top_n).filter
            (fun r => r.station_id = e)).filter (fun r => r.occupancy_rate = q)) := by
        rw [List.filter_filter]
        apply List.filter_congr
        intro x _
        rw [decide_and_eq, Bool.and_comm]
      have hcomb2 : ((df.insertionSort peakRel).filter
          (fun r => r.station_id = e ∧ r.occupancy_rate = q)) =
          (((df.insertionSort peakRel).filter
            (fun r => r.station_id = e)).filter (fun r => r.occupancy_rate = q)) := by
        rw [List.filter_filter]
        apply List.filter_congr
        intro x _
        rw [decide_and_eq, Bool.and_comm]
      rw [hcomb, hcomb2, hmain]
      exact (List.take_sublist _ _).filter _
    exact (hout.trans (heq ▸ List.filter_sublist df))

/-- Witness for C2: the theorem at a concrete three-row table. -/
theorem C2_peak_periods_per_entity_witness :
    ((compute_peak_periods [⟨"A", 0, 1⟩, ⟨"A", 1, 0⟩, ⟨"B", 2, 1⟩] 1).filter
        (fun r => r.station_id = "A")).length =
      min 1 (([⟨"A", 0, 1⟩, ⟨"A", 1, 0⟩, ⟨"B", 2, 1⟩].filter
        (fun r : StRow => r.station_id = "A")).length) :=
  (C2_peak_periods_per_entity [⟨"A", 0, 1⟩, ⟨"A", 1, 0⟩, ⟨"B", 2, 1⟩] 1 "A").1

end Nobil
